import Mathlib

/-!
Shallow embedding of the virtualagency repository core
(src/apps/server/src/{agents,pty,files,main}.rs and
src/apps/desktop/src-tauri/src/agents/{manager,process}.rs),
with theorems settling the frozen claims about it.
-/

namespace VA

/-! ### Broadcast event model (agents.rs lines 13-41, main.rs lines 57-66) -/

inductive AgentStatus
  | idle
  | thinking
  | working
  | error
  | exited
deriving DecidableEq, Repr

inductive OutputStream
  | stdout
  | stderr
deriving DecidableEq, Repr

/-- One message on the agent broadcast channel, as sent by the agent code:
either an AgentOutput (agent id, stream, line) or an AgentStatusChange
(agent id, status). -/
inductive BMsg
  | output (agentId : String) (stream : OutputStream) (data : String)
  | status (agentId : String) (s : AgentStatus)
deriving DecidableEq, Repr

/-! ### Parsed stdout frame

The stdout reader (agents.rs lines 203-261, process.rs lines 162-250) parses
each line with serde_json and then only inspects the string values at keys
"session_id" and "type" via get(..).and_then(as_str).  A parsed frame is
therefore embedded as exactly those two observations. -/

structure Frame where
  type? : Option String
  sessionId? : Option String
deriving DecidableEq, Repr

/-- Step 3 of the per-line handling (agents.rs lines 210-216): if the object
carries a string-valued session_id and the stored conversation id is empty,
store it. -/
def observeSessionId (sid : Option String) (f : Frame) : Option String :=
  match f.sessionId? with
  | some s => if sid.isNone then some s else sid
  | none => sid

/-- The status chosen by the match on the "type" value
(agents.rs lines 219-236). -/
def statusForType (t : String) : Option AgentStatus :=
  if t = "assistant" ∨ t = "content_block_delta" ∨ t = "content_block_start" then
    some AgentStatus.working
  else if t = "result" then
    some AgentStatus.idle
  else if t = "message_stop" ∨ t = "content_block_stop" ∨ t = "message_end" then
    some AgentStatus.idle
  else if t = "error" then
    some AgentStatus.error
  else
    none

def workingTypes : List String := ["assistant", "content_block_delta", "content_block_start"]

def idleTypes : List String := ["message_stop", "content_block_stop", "message_end"]

/-- Handling of one parsed frame (agents.rs lines 209-245): first the
first-observation write of session_id, then the match on "type", whose
"result" arm additionally overwrites the stored id from the frame.  Returns
the new stored conversation id and the status to emit, if any. -/
def processFrame (sid : Option String) (f : Frame) : Option String × Option AgentStatus :=
  let sid1 := observeSessionId sid f
  match f.type? with
  | none => (sid1, none)
  | some t =>
    let sid2 :=
      if t = "result" then
        match f.sessionId? with
        | some s => some s
        | none => sid1
      else sid1
    (sid2, statusForType t)

/-- Handling of one stdout line (agents.rs lines 206-252).  The parse result
of the line is passed in (serde_json is an external collaborator).  On parse
failure only the raw line is forwarded; on success the status event derived
from the frame is sent first (lines 238-243) and the raw line is forwarded
after it (lines 247-251). -/
def processLine (agentId : String) (sid : Option String) (raw : String)
    (parsed : Option Frame) : Option String × List BMsg :=
  match parsed with
  | none => (sid, [BMsg.output agentId OutputStream.stdout raw])
  | some f =>
    let r := processFrame sid f
    let statusEvs : List BMsg :=
      match r.2 with
      | some s => [BMsg.status agentId s]
      | none => []
    (r.1, statusEvs ++ [BMsg.output agentId OutputStream.stdout raw])

/-- The stored-conversation-id effect of a whole stdout trace. -/
def runSessionId (sid : Option String) (frames : List Frame) : Option String :=
  frames.foldl (fun s f => (processFrame s f).1) sid

/-! ### Assistant session state and lifecycle (agents.rs lines 77-337)

The mutable state of one AgentProcess is the stored conversation id
(session_id) and the stored child handle (current_child).  A child handle is
embedded as an opaque token.  Fallible OS calls (child.kill) are passed in
as a boolean outcome. -/

structure AgentProcessM where
  id : String
  name : String
  working_dir : String
  model : String
  thinkingEnabled : Bool
  mcpServers : List String
  sessionId : Option String
  currentChild : Option Nat
deriving DecidableEq, Repr

/-- AgentProcess::new (agents.rs lines 90-112): checks that the external CLI
can be found, then builds the session with empty session_id and no child. -/
def AgentProcessM.new (cliFound : Bool) (id name working_dir model : String)
    (thinkingEnabled : Bool) (mcpServers : List String) :
    Except String AgentProcessM :=
  if cliFound then
    Except.ok ⟨id, name, working_dir, model, thinkingEnabled, mcpServers, none, none⟩
  else
    Except.error "Claude CLI not found. Install with: npm install -g @anthropic-ai/claude-code"

/-- The whole run of the stdout reader thread (agents.rs lines 203-261) over
the lines it reads, followed by the final idle status it emits at
end-of-stream (lines 257-260).  The thread captures only the session_id arc
and the sender, so its effect on session state is exactly the session-id
update; in particular it does not touch current_child. -/
def stdoutReaderRun (agentId : String) (sid : Option String)
    (lines : List (String × Option Frame)) : Option String × List BMsg :=
  let folded := lines.foldl
    (fun (acc : Option String × List BMsg) l =>
      let r := processLine agentId acc.1 l.1 l.2
      (r.1, acc.2 ++ r.2))
    (sid, [])
  (folded.1, folded.2 ++ [BMsg.status agentId AgentStatus.idle])

/-- The effect of the stdout reader reaching end-of-stream on the full
session state: the stored child handle is not accessible to the thread and
stays as it is. -/
def sessionAfterReaderRun (a : AgentProcessM)
    (lines : List (String × Option Frame)) : AgentProcessM × List BMsg :=
  let r := stdoutReaderRun a.id a.sessionId lines
  ({ a with sessionId := r.1 }, r.2)

/-- AgentProcess::stop (agents.rs lines 291-304): if a child is stored, kill
it; on success clear the handle and emit idle; on failure return the error
with the handle still in place.  With no child stored it does nothing. -/
def AgentProcessM.stop (killOk : Bool) (a : AgentProcessM) :
    Except String Unit × AgentProcessM × List BMsg :=
  match a.currentChild with
  | some _ =>
    if killOk then
      (Except.ok (), { a with currentChild := none },
        [BMsg.status a.id AgentStatus.idle])
    else
      (Except.error "Failed to stop process", a, [])
  | none => (Except.ok (), a, [])

/-- AgentProcess::kill (agents.rs lines 306-314): kill the stored child if
any (propagating a kill failure before clearing), then clear the handle.
No status event is emitted. -/
def AgentProcessM.kill (killOk : Bool) (a : AgentProcessM) :
    Except String Unit × AgentProcessM × List BMsg :=
  match a.currentChild with
  | some _ =>
    if killOk then
      (Except.ok (), { a with currentChild := none }, [])
    else
      (Except.error "Failed to kill process", a, [])
  | none => (Except.ok (), { a with currentChild := none }, [])

/-! ### Session registries

HashMap::insert replaces any existing binding; it is embedded as an
association list where insert removes the old binding and adds the new
one. -/

def hmLookup {α : Type} (m : List (String × α)) (k : String) : Option α :=
  (m.find? (fun e => e.1 == k)).map (fun e => e.2)

def hmInsert {α : Type} (m : List (String × α)) (k : String) (v : α) :
    List (String × α) :=
  (k, v) :: m.filter (fun e => e.1 != k)

def hmRemove {α : Type} (m : List (String × α)) (k : String) :
    List (String × α) :=
  m.filter (fun e => e.1 != k)

/-- AgentManager::create_agent in the server (agents.rs lines 352-374): take
the provided id or a freshly minted one (the minted value is passed in),
build the AgentProcess, and insert it into the map.  There is no check that
the id is absent: the insert replaces any existing binding. -/
def serverCreateAgent (cliFound : Bool) (m : List (String × AgentProcessM))
    (id? : Option String) (minted name working_dir model : String)
    (thinkingEnabled : Bool) (mcpServers : List String) :
    Except String String × List (String × AgentProcessM) :=
  let id := id?.getD minted
  match AgentProcessM.new cliFound id name working_dir model thinkingEnabled mcpServers with
  | Except.error e => (Except.error e, m)
  | Except.ok a => (Except.ok id, hmInsert m id a)

/-- AgentManager::kill_agent (agents.rs lines 376-382): remove the session
from the map and call kill on it; unknown ids give a not-found error. -/
def serverKillAgent (killOk : Bool) (m : List (String × AgentProcessM))
    (id : String) : Except String Unit × List (String × AgentProcessM) × List BMsg :=
  match hmLookup m id with
  | some a =>
    let r := AgentProcessM.kill killOk a
    (r.1, hmRemove m id, r.2.2)
  | none => (Except.error ("Agent not found: " ++ id), m, [])

/-- The desktop AgentProcess (process.rs lines 10-16) stores id, working
directory, session id and child handle. -/
structure DAgentProcessM where
  id : String
  working_dir : String
  sessionId : Option String
  currentChild : Option Nat
deriving DecidableEq, Repr

/-- AgentManager::create_agent in the desktop host (manager.rs lines 16-32):
rejects an id that is already present with a conflict error before building
and inserting the AgentProcess.  The model, thinking and session-id
arguments of the call are accepted but the desktop AgentProcess struct keeps
no fields for them. -/
def desktopCreateAgent (cliFound : Bool) (m : List (String × DAgentProcessM))
    (id working_dir _model : String) (_thinkingEnabled : Bool)
    (_sessionId : Option String) :
    Except String Unit × List (String × DAgentProcessM) :=
  if (hmLookup m id).isSome then
    (Except.error "Agent with this ID already exists", m)
  else if cliFound then
    (Except.ok (), hmInsert m id ⟨id, working_dir, none, none⟩)
  else
    (Except.error "Claude CLI not found. Install with: npm install -g @anthropic-ai/claude-code", m)

/-! ### Terminal sessions (pty.rs) -/

/-- Output from a terminal session (pty.rs lines 9-13); terminals broadcast
on their own channel, separate from the agent channel. -/
structure TerminalOutput where
  terminal_id : String
  data : String
deriving DecidableEq, Repr

/-- A terminal session (pty.rs lines 16-24); the writer, master, child and
reader-task handles are embedded as opaque tokens. -/
structure TerminalSessionM where
  id : String
  working_dir : String
  child : Nat
deriving DecidableEq, Repr

/-- TerminalManager::create_terminal (pty.rs lines 83-206): take the
provided id or a freshly minted one, open the PTY and spawn the shell (the
fallible OS steps are passed in as one boolean outcome), start the reader,
and insert the session into the map.  There is no check that the id is
absent: the insert replaces any existing binding. -/
def createTerminal (spawnOk : Bool) (m : List (String × TerminalSessionM))
    (id? : Option String) (minted working_dir : String)
    (_cols _rows : Nat) (childTok : Nat) :
    Except String String × List (String × TerminalSessionM) :=
  let tid := id?.getD minted
  if spawnOk then
    (Except.ok tid, hmInsert m tid ⟨tid, working_dir, childTok⟩)
  else
    (Except.error "Failed to spawn shell", m)

/-! ### Lossy UTF-8 decoding

String::from_utf8_lossy is total: every byte sequence decodes, with each
maximal invalid subpart replaced by U+FFFD.  The decoder below follows the
UTF-8 table (lead byte ranges C2-DF, E0-EF with tightened first
continuation for E0 and ED, F0-F4 with tightened first continuation for F0
and F4); fuel is the byte count, and every step consumes at least one byte
and one unit of fuel. -/

def replChar : Char := Char.ofNat 0xFFFD

def isCont (b : Nat) : Bool := 0x80 ≤ b && b ≤ 0xBF

def utf8LossyAux : Nat → List Nat → List Char
  | 0, _ => []
  | _ + 1, [] => []
  | fuel + 1, b :: rest =>
    if b ≤ 0x7F then Char.ofNat b :: utf8LossyAux fuel rest
    else if 0xC2 ≤ b && b ≤ 0xDF then
      match rest with
      | b1 :: r1 =>
        if isCont b1 then
          Char.ofNat ((b - 0xC0) * 0x40 + (b1 - 0x80)) :: utf8LossyAux fuel r1
        else replChar :: utf8LossyAux fuel rest
      | [] => [replChar]
    else if 0xE0 ≤ b && b ≤ 0xEF then
      let lo1 := if b = 0xE0 then 0xA0 else 0x80
      let hi1 := if b = 0xED then 0x9F else 0xBF
      match rest with
      | b1 :: r1 =>
        if lo1 ≤ b1 && b1 ≤ hi1 then
          match r1 with
          | b2 :: r2 =>
            if isCont b2 then
              Char.ofNat ((b - 0xE0) * 0x1000 + (b1 - 0x80) * 0x40 + (b2 - 0x80)) ::
                utf8LossyAux fuel r2
            else replChar :: utf8LossyAux fuel r1
          | [] => [replChar]
        else replChar :: utf8LossyAux fuel rest
      | [] => [replChar]
    else if 0xF0 ≤ b && b ≤ 0xF4 then
      let lo1 := if b = 0xF0 then 0x90 else 0x80
      let hi1 := if b = 0xF4 then 0x8F else 0xBF
      match rest with
      | b1 :: r1 =>
        if lo1 ≤ b1 && b1 ≤ hi1 then
          match r1 with
          | b2 :: r2 =>
            if isCont b2 then
              match r2 with
              | b3 :: r3 =>
                if isCont b3 then
                  Char.ofNat ((b - 0xF0) * 0x40000 + (b1 - 0x80) * 0x1000 +
                      (b2 - 0x80) * 0x40 + (b3 - 0x80)) :: utf8LossyAux fuel r3
                else replChar :: utf8LossyAux fuel r2
              | [] => [replChar]
            else replChar :: utf8LossyAux fuel r1
          | [] => [replChar]
        else replChar :: utf8LossyAux fuel rest
      | [] => [replChar]
    else replChar :: utf8LossyAux fuel rest

/-- Total lossy decoding of a byte chunk, as String::from_utf8_lossy. -/
def utf8Lossy (bytes : List Nat) : String :=
  String.mk (utf8LossyAux bytes.length bytes)

/-! ### Terminal reader loop (pty.rs lines 152-192) -/

/-- One outcome of reader.read into the 4 KiB buffer. -/
inductive ReadResult
  | eof
  | chunk (bytes : List Nat)
  | wouldBlock
  | ioErr
deriving DecidableEq, Repr

/-- The reader loop (pty.rs lines 156-191): a read of 0 bytes exits; a read
of n bytes first checks the shutdown channel without blocking and exits if
signalled, otherwise decodes the chunk lossily and publishes exactly one
terminal-output event; a would-block error sleeps and retries; any other
error exits.  The kill-channel observation at iteration i is the value of
the kill predicate at i. -/
def readerLoop (tid : String) (kill : Nat → Bool) :
    Nat → List ReadResult → List TerminalOutput
  | _, [] => []
  | _, ReadResult.eof :: _ => []
  | i, ReadResult.chunk bs :: rest =>
    if kill i then []
    else ⟨tid, utf8Lossy bs⟩ :: readerLoop tid kill (i + 1) rest
  | i, ReadResult.wouldBlock :: rest => readerLoop tid kill (i + 1) rest
  | _, ReadResult.ioErr :: _ => []

/-! ### Filesystem model for the file endpoints (files.rs)

files.rs works through the OS path API: Path::join and Path::parent are
purely lexical, while fs::canonicalize, fs::create_dir_all, fs::write and
fs::read_to_string resolve paths against the real tree, following symbolic
links.  The model is a tree of entries keyed by absolute resolved paths
(component lists from the root), with directories, text files and symlinks.
Resolution follows POSIX: components are walked left to right, dot and
dot-dot are applied to the resolved-so-far path, symlinks are followed with
a fuel bound standing for the OS link-loop limit. -/

/-- A raw (not yet resolved) path: absolute flag plus components, which may
still contain dot and dot-dot. -/
structure RawPath where
  absolute : Bool
  comps : List String
deriving DecidableEq, Repr

inductive Entry
  | dir
  | file (content : String)
  | symlink (target : RawPath)
deriving DecidableEq, Repr

structure FS where
  entries : List (List String × Entry)
deriving DecidableEq, Repr

/-- Look up the entry at an absolute resolved path; the root is always a
directory. -/
def FS.lookup (fs : FS) (p : List String) : Option Entry :=
  if p = [] then some Entry.dir
  else (fs.entries.find? (fun e => e.1 == p)).map (fun e => e.2)

/-- Bind an entry at a path, shadowing any previous binding. -/
def FS.insert (fs : FS) (p : List String) (e : Entry) : FS :=
  ⟨(p, e) :: fs.entries.filter (fun x => x.1 != p)⟩

/-- Path::join (Rust, lexical): an absolute right side replaces the left
side, otherwise components are appended. -/
def pathJoin (base p : RawPath) : RawPath :=
  if p.absolute then p else ⟨base.absolute, base.comps ++ p.comps⟩

/-- Path::parent (Rust, lexical): drop the last component; the root and the
empty path have no parent. -/
def rawParent (p : RawPath) : Option RawPath :=
  if p.comps = [] then none else some ⟨p.absolute, p.comps.dropLast⟩

/-- Walk components from a resolved base, requiring every visited entry to
exist (realpath semantics, as used by fs::canonicalize): dot is skipped,
dot-dot pops, a directory is entered, a file is only allowed as the final
component, a symlink is resolved recursively and the walk continues from
its resolution.  Fuel bounds symlink chains; every step consumes fuel. -/
def resolveFrom (fs : FS) : Nat → List String → List String → Option (List String)
  | 0, cur, l => if l = [] then some cur else none
  | _ + 1, cur, [] => some cur
  | fuel + 1, cur, c :: rest =>
    if c = "." then resolveFrom fs fuel cur rest
    else if c = ".." then resolveFrom fs fuel cur.dropLast rest
    else
      match fs.lookup (cur ++ [c]) with
      | some Entry.dir => resolveFrom fs fuel (cur ++ [c]) rest
      | some (Entry.file _) => if rest = [] then some (cur ++ [c]) else none
      | some (Entry.symlink t) =>
        match resolveFrom fs fuel (if t.absolute then [] else cur) t.comps with
        | some r => resolveFrom fs fuel r rest
        | none => none
      | none => none

def resolveFuel : Nat := 1000

/-- fs::canonicalize: resolve an absolute path against the tree (the server
always canonicalizes paths joined onto an absolute workspace). -/
def canonicalize (fs : FS) (p : RawPath) : Option (List String) :=
  if p.absolute then resolveFrom fs resolveFuel [] p.comps else none

/-- fs::create_dir_all: walk the components as in resolution but create a
directory for every missing component; fails where a file stands in the
way or a symlink does not resolve to a directory.  Returns the updated
tree also on the error path, since the directories made before the failing
component persist. -/
def createDirAll (fs : FS) : Nat → List String → List String → Bool × FS
  | 0, _, l => (l = [], fs)
  | _ + 1, _, [] => (true, fs)
  | fuel + 1, cur, c :: rest =>
    if c = "." then createDirAll fs fuel cur rest
    else if c = ".." then createDirAll fs fuel cur.dropLast rest
    else
      match fs.lookup (cur ++ [c]) with
      | some Entry.dir => createDirAll fs fuel (cur ++ [c]) rest
      | some (Entry.file _) => (false, fs)
      | some (Entry.symlink t) =>
        match resolveFrom fs fuel (if t.absolute then [] else cur) t.comps with
        | some r =>
          match fs.lookup r with
          | some Entry.dir => createDirAll fs fuel r rest
          | _ => (false, fs)
        | none => (false, fs)
      | none => createDirAll (fs.insert (cur ++ [c]) Entry.dir) fuel (cur ++ [c]) rest

/-- Resolution as performed by open with O_CREAT for writing (fs::write):
every component but the last must resolve to an existing directory; the
final component may be missing (the file will be created), may be an
existing file (truncated), is followed when it is a symlink, and is an
error when it is a directory. -/
def resolveOpen (fs : FS) : Nat → List String → List String → Option (List String)
  | 0, _, _ => none
  | _ + 1, _, [] => none
  | fuel + 1, cur, [f] =>
    if f = "." ∨ f = ".." then none
    else
      match fs.lookup (cur ++ [f]) with
      | none => some (cur ++ [f])
      | some (Entry.file _) => some (cur ++ [f])
      | some Entry.dir => none
      | some (Entry.symlink t) =>
        resolveOpen fs fuel (if t.absolute then [] else cur) t.comps
  | fuel + 1, cur, c :: rest =>
    if c = "." then resolveOpen fs fuel cur rest
    else if c = ".." then resolveOpen fs fuel cur.dropLast rest
    else
      match fs.lookup (cur ++ [c]) with
      | some Entry.dir => resolveOpen fs fuel (cur ++ [c]) rest
      | some (Entry.symlink t) =>
        match resolveFrom fs fuel (if t.absolute then [] else cur) t.comps with
        | some r =>
          match fs.lookup r with
          | some Entry.dir => resolveOpen fs fuel r rest
          | _ => none
        | none => none
      | _ => none

/-- fs::write on a raw path: resolve as open-for-write does, then bind the
file content at the resolved location. -/
def fsWrite (fs : FS) (p : RawPath) (content : String) : Option FS :=
  if p.absolute then
    match resolveOpen fs resolveFuel [] p.comps with
    | some target => some (fs.insert target (Entry.file content))
    | none => none
  else none

/-- fs::read_to_string on a resolved path. -/
def fsReadToString (fs : FS) (p : List String) : Option String :=
  match fs.lookup p with
  | some (Entry.file c) => some c
  | _ => none

/-! ### File endpoints (files.rs lines 92-146) -/

structure ReadFileRequest where
  path : RawPath
deriving DecidableEq, Repr

structure WriteFileRequest where
  path : RawPath
  content : String
deriving DecidableEq, Repr

def accessDeniedMsg : String := "Access denied: path outside workspace"

/-- files::read_file (files.rs lines 92-114): join the client path onto the
workspace, canonicalize workspace and file, reject when the canonical file
does not start with the canonical workspace, then read the canonical
file. -/
def read_file (fs : FS) (workspace_dir : RawPath) (req : ReadFileRequest) :
    Except String String :=
  match canonicalize fs workspace_dir with
  | none => Except.error "Invalid workspace directory"
  | some canonical_workspace =>
    match canonicalize fs (pathJoin workspace_dir req.path) with
    | none => Except.error "File not found"
    | some canonical_file =>
      if ¬ canonical_workspace.isPrefixOf canonical_file then
        Except.error accessDeniedMsg
      else
        match fsReadToString fs canonical_file with
        | some content => Except.ok content
        | none => Except.error "read error"

/-- files::write_file (files.rs lines 116-146): join the client path onto
the workspace and canonicalize the workspace; when the joined path has a
parent, create all missing parent directories, canonicalize the parent and
reject when it does not start with the canonical workspace; finally write
the file at the raw joined path.  The tree is threaded through, so the
directories made by create_dir_all persist on every outcome. -/
def write_file (fs : FS) (workspace_dir : RawPath) (req : WriteFileRequest) :
    Except String Unit × FS :=
  match canonicalize fs workspace_dir with
  | none => (Except.error "Invalid workspace directory", fs)
  | some canonical_workspace =>
    match rawParent (pathJoin workspace_dir req.path) with
    | some parent =>
      match createDirAll fs resolveFuel [] parent.comps with
      | (false, fs1) => (Except.error "Failed to create directory", fs1)
      | (true, fs1) =>
        match canonicalize fs1 parent with
        | none => (Except.error "Invalid parent directory", fs1)
        | some canonical_parent =>
          if ¬ canonical_workspace.isPrefixOf canonical_parent then
            (Except.error accessDeniedMsg, fs1)
          else
            match fsWrite fs1 (pathJoin workspace_dir req.path) req.content with
            | some fs2 => (Except.ok (), fs2)
            | none => (Except.error "write error", fs1)
    | none =>
      match fsWrite fs (pathJoin workspace_dir req.path) req.content with
      | some fs2 => (Except.ok (), fs2)
      | none => (Except.error "write error", fs)

/-! ### HTTP file handlers (main.rs lines 239-283)

Both handlers look up the working directory of the owning session and call
the files operation, mapping success to 200 and every error from it to
500; an unknown session id gives 404.  The registry is embedded as the map
from agent id to workspace directory that the handlers extract from
list_agents. -/

def httpReadFile (agents : List (String × RawPath)) (fs : FS)
    (agent_id : String) (req : ReadFileRequest) : Nat × String :=
  match hmLookup agents agent_id with
  | none => (404, "Agent not found")
  | some working_dir =>
    match read_file fs working_dir req with
    | Except.ok content => (200, content)
    | Except.error e => (500, e)

def httpWriteFile (agents : List (String × RawPath)) (fs : FS)
    (agent_id : String) (req : WriteFileRequest) : (Nat × String) × FS :=
  match hmLookup agents agent_id with
  | none => ((404, "Agent not found"), fs)
  | some working_dir =>
    match write_file fs working_dir req with
    | (Except.ok _, fs2) => ((200, "success"), fs2)
    | (Except.error e, fs2) => ((500, e), fs2)

/-! ### Concrete trees and registries used by counterexamples and witnesses -/

/-- A workspace /ws holding a plain file and a symlink whose target
/etc/target lies outside the workspace, next to /etc/passwd. -/
def fsA : FS := ⟨[(["ws"], Entry.dir), (["ws", "hello.txt"], Entry.file "hi"),
  (["ws", "link"], Entry.symlink ⟨true, ["etc", "target"]⟩),
  (["etc"], Entry.dir), (["etc", "target"], Entry.file "old"),
  (["etc", "passwd"], Entry.file "rootx")]⟩

def wsA : RawPath := ⟨true, ["ws"]⟩

def oldAgentA : AgentProcessM :=
  ⟨"A", "old", "/w1", "sonnet", false, [], some "S", some 7⟩

def newAgentA : AgentProcessM :=
  ⟨"A", "new", "/w2", "opus", false, [], none, none⟩

def regA : List (String × AgentProcessM) := [("A", oldAgentA)]

def oldTermT : TerminalSessionM := ⟨"T", "/w1", 3⟩

def termRegA : List (String × TerminalSessionM) := [("T", oldTermT)]

/-! ### Helper lemmas -/

theorem hmLookup_hmInsert {α : Type} (m : List (String × α)) (k : String) (v : α) :
    hmLookup (hmInsert m k v) k = some v := by
  simp [hmLookup, hmInsert, List.find?]

theorem hmLookup_hmRemove {α : Type} (m : List (String × α)) (k : String) :
    hmLookup (hmRemove m k) k = none := by
  unfold hmLookup hmRemove
  cases h : List.find? (fun e => e.1 == k) (m.filter (fun e => e.1 != k)) with
  | none => rfl
  | some e =>
    have h1 := List.find?_some h
    have h2 := (List.mem_filter.mp (List.mem_of_find?_eq_some h)).2
    simp at h1 h2
    exact absurd h1 (by simp [h2])

theorem processFrame_fst_some (v : String) (f : Frame) :
    ∃ u, (processFrame (some v) f).1 = some u := by
  rcases f with ⟨t?, s?⟩
  cases t? with
  | none => cases s? <;> exact ⟨v, rfl⟩
  | some t =>
    cases s? with
    | none =>
      by_cases h : t = "result" <;> simp [processFrame, observeSessionId, h]
    | some s =>
      by_cases h : t = "result"
      · exact ⟨s, by simp [processFrame, observeSessionId, h]⟩
      · exact ⟨v, by simp [processFrame, observeSessionId, h]⟩

theorem runSessionId_some (v : String) (frames : List Frame) :
    ∃ u, runSessionId (some v) frames = some u := by
  induction frames generalizing v with
  | nil => exact ⟨v, rfl⟩
  | cons f fs ih =>
    obtain ⟨u, hu⟩ := processFrame_fst_some v f
    have : runSessionId (some v) (f :: fs) = runSessionId (some u) fs := by
      simp [runSessionId, hu]
    rw [this]
    exact ih u

/-! ### Claim theorems -/

/-- C4: for every parsed stdout frame carrying a string-valued type, the
status emitted is working for assistant, content_block_delta and
content_block_start; idle for result, which also overwrites the stored
conversation id from the frame regardless of its current value; idle for
message_stop, content_block_stop and message_end; error for error; and no
status event for any other type value. -/
theorem C4_status_mapping (sid : Option String) (f : Frame) (t : String)
    (ht : f.type? = some t) :
    (t ∈ workingTypes → (processFrame sid f).2 = some AgentStatus.working) ∧
    (t = "result" → (processFrame sid f).2 = some AgentStatus.idle ∧
      ∀ s, f.sessionId? = some s → (processFrame sid f).1 = some s) ∧
    (t ∈ idleTypes → (processFrame sid f).2 = some AgentStatus.idle) ∧
    (t = "error" → (processFrame sid f).2 = some AgentStatus.error) ∧
    (t ∉ workingTypes → t ≠ "result" → t ∉ idleTypes → t ≠ "error" →
      (processFrame sid f).2 = none) := by
  have hsnd : (processFrame sid f).2 = statusForType t := by
    simp [processFrame, ht]
  refine ⟨?_, ?_, ?_, ?_, ?_⟩
  · intro hm
    simp [workingTypes] at hm
    rcases hm with h | h | h <;> rw [hsnd, h] <;> rfl
  · intro hr
    refine ⟨by rw [hsnd, hr]; rfl, ?_⟩
    intro s hs
    simp [processFrame, ht, hr, hs]
  · intro hm
    simp [idleTypes] at hm
    rcases hm with h | h | h <;> rw [hsnd, h] <;> rfl
  · intro he
    rw [hsnd, he]
    rfl
  · intro h1 h2 h3 h4
    rw [hsnd]
    simp [workingTypes] at h1
    simp [idleTypes] at h3
    simp [statusForType, h1.1, h1.2.1, h1.2.2, h2, h3.1, h3.2.1, h3.2.2, h4]

/-- Witness for C4 at the frame with type result and session_id S1. -/
theorem C4_status_mapping_witness :
    (processFrame none ⟨some "result", some "S1"⟩).2 = some AgentStatus.idle ∧
    (processFrame none ⟨some "result", some "S1"⟩).1 = some "S1" := by
  have h := C4_status_mapping none ⟨some "result", some "S1"⟩ "result" rfl
  exact ⟨(h.2.1 rfl).1, (h.2.1 rfl).2 "S1" rfl⟩

/-- C5: the stored conversation id, once set, is never cleared by the stream
parser (over a single frame and over any whole trace); it moves away from a
set value only through a frame of type result carrying a string session_id;
and a frame of any other type carrying a session_id writes it only when the
stored id is currently empty. -/
theorem C5_conversation_id (sid : Option String) (f : Frame) (v : String)
    (frames : List Frame) :
    ((processFrame sid f).1 = none → sid = none) ∧
    (runSessionId (some v) frames ≠ none) ∧
    (sid = some v → (processFrame sid f).1 ≠ some v →
      f.type? = some "result" ∧
        ∃ s, f.sessionId? = some s ∧ (processFrame sid f).1 = some s) ∧
    (f.type? ≠ some "result" → ∀ s, f.sessionId? = some s →
      (processFrame sid f).1 = if sid.isNone then some s else sid) := by
  refine ⟨?_, ?_, ?_, ?_⟩
  · intro h
    cases sid with
    | none => rfl
    | some u =>
      obtain ⟨w, hw⟩ := processFrame_fst_some u f
      rw [hw] at h
      exact absurd h (by simp)
  · obtain ⟨u, hu⟩ := runSessionId_some v frames
    simp [hu]
  · intro hv hne
    subst hv
    rcases f with ⟨t?, s?⟩
    cases t? with
    | none =>
      cases s? with
      | none => exact absurd rfl hne
      | some s => simp [processFrame, observeSessionId] at hne
    | some t =>
      by_cases hr : t = "result"
      · subst hr
        cases s? with
        | none => simp [processFrame, observeSessionId] at hne
        | some s => exact ⟨rfl, s, rfl, by simp [processFrame, observeSessionId]⟩
      · cases s? with
        | none => simp [processFrame, observeSessionId, hr] at hne
        | some s => simp [processFrame, observeSessionId, hr] at hne
  · intro hnr s hs
    rcases f with ⟨t?, s?⟩
    simp only at hs
    subst hs
    cases t? with
    | none => cases sid <;> simp [processFrame, observeSessionId]
    | some t =>
      have hr : t ≠ "result" := by
        intro h
        exact hnr (by rw [h])
      cases sid <;> simp [processFrame, observeSessionId, hr]

/-- Witness for C5: a non-result frame carrying a session_id leaves an
already-set conversation id unchanged, and a set id survives a whole
trace. -/
theorem C5_conversation_id_witness :
    (processFrame (some "A") ⟨some "system", some "B"⟩).1 = some "A" ∧
    runSessionId (some "A") [⟨some "result", some "B"⟩] ≠ none := by
  have h := C5_conversation_id (some "A") ⟨some "system", some "B"⟩ "A"
    [⟨some "result", some "B"⟩]
  refine ⟨?_, h.2.1⟩
  have h4 := h.2.2.2 (by simp) "B" rfl
  simpa using h4

/-- C6 fails as stated: on the line carrying a frame of type assistant, the
reader emits the working status event before the raw-line output event, so
the raw line is not forwarded first. -/
theorem C6_counterexample :
    (processLine "A" none "\x7b\"type\":\"assistant\"\x7d"
        (some ⟨some "assistant", none⟩)).2 =
      [BMsg.status "A" AgentStatus.working,
       BMsg.output "A" OutputStream.stdout "\x7b\"type\":\"assistant\"\x7d"] ∧
    (processLine "A" none "\x7b\"type\":\"assistant\"\x7d"
        (some ⟨some "assistant", none⟩)).2.head? ≠
      some (BMsg.output "A" OutputStream.stdout "\x7b\"type\":\"assistant\"\x7d") := by
  exact ⟨rfl, by decide⟩

/-- C6 amended: the raw line is forwarded as an assistant-output stdout
event unconditionally, but as the last event for that line, after any
status event derived from parsing it; when the line fails to parse as a
JSON object, the raw forward is all that happens. -/
theorem C6_raw_forward (agentId : String) (sid : Option String) (raw : String)
    (parsed : Option Frame) :
    (processLine agentId sid raw parsed).2.getLast? =
      some (BMsg.output agentId OutputStream.stdout raw) ∧
    (parsed = none →
      (processLine agentId sid raw parsed).2 =
        [BMsg.output agentId OutputStream.stdout raw]) := by
  cases parsed with
  | none => exact ⟨rfl, fun _ => rfl⟩
  | some f =>
    refine ⟨?_, by simp⟩
    cases h : (processFrame sid f).2 <;>
      simp [processLine, h]

/-- Witness for C6 amended at a line that does not parse and a line that
parses to a result frame. -/
theorem C6_raw_forward_witness :
    (processLine "A" none "not json" none).2 =
      [BMsg.output "A" OutputStream.stdout "not json"] ∧
    (processLine "A" none "r" (some ⟨some "result", none⟩)).2.getLast? =
      some (BMsg.output "A" OutputStream.stdout "r") := by
  exact ⟨(C6_raw_forward "A" none "not json" none).2 rfl,
    (C6_raw_forward "A" none "r" (some ⟨some "result", none⟩)).1⟩

/-- C3 fails as stated in the server: create_agent and create_terminal do
not check whether the id is already present; with a duplicate id the calls
succeed and the insert replaces the live session stored under that id. -/
theorem C3_counterexample :
    (serverCreateAgent true regA (some "A") "m" "new" "/w2" "opus" false []).1 =
      Except.ok "A" ∧
    hmLookup (serverCreateAgent true regA (some "A") "m" "new" "/w2" "opus" false []).2 "A" =
      some newAgentA ∧
    newAgentA ≠ oldAgentA ∧
    (createTerminal true termRegA (some "T") "m" "/w2" 80 24 9).1 = Except.ok "T" ∧
    hmLookup (createTerminal true termRegA (some "T") "m" "/w2" 80 24 9).2 "T" =
      some ⟨"T", "/w2", 9⟩ ∧
    (⟨"T", "/w2", 9⟩ : TerminalSessionM) ≠ oldTermT := by
  exact ⟨rfl, by decide, by decide, rfl, by decide, by decide⟩

/-- C3 amended: only the desktop create_agent enforces uniqueness, failing
with a conflict error and leaving the registry unchanged when the id is
present; the server create_agent and create_terminal perform no duplicate
check, succeed, and their insert replaces whatever session was stored under
the id. -/
theorem C3_create_uniqueness (m : List (String × DAgentProcessM))
    (ms : List (String × AgentProcessM)) (mt : List (String × TerminalSessionM))
    (cliFound : Bool) (id wd model minted name wdir mdl twd : String)
    (te : Bool) (sid? : Option String) (mcp : List String) (a : AgentProcessM)
    (cols rows childTok : Nat)
    (hdup : (hmLookup m id).isSome) :
    desktopCreateAgent cliFound m id wd model te sid? =
      (Except.error "Agent with this ID already exists", m) ∧
    (AgentProcessM.new cliFound id name wdir mdl te mcp = Except.ok a →
      (serverCreateAgent cliFound ms (some id) minted name wdir mdl te mcp).1 =
        Except.ok id ∧
      hmLookup (serverCreateAgent cliFound ms (some id) minted name wdir mdl te mcp).2 id =
        some a) ∧
    ((createTerminal true mt (some id) minted twd cols rows childTok).1 =
        Except.ok id ∧
      hmLookup (createTerminal true mt (some id) minted twd cols rows childTok).2 id =
        some ⟨id, twd, childTok⟩) := by
  refine ⟨by simp [desktopCreateAgent, hdup], ?_, ?_⟩
  · intro hnew
    constructor
    · simp [serverCreateAgent, hnew]
    · simp [serverCreateAgent, hnew, hmLookup_hmInsert]
  · constructor
    · simp [createTerminal]
    · simp [createTerminal, hmLookup_hmInsert]

/-- Witness for C3 amended at a one-entry desktop registry and concrete
server registries. -/
theorem C3_create_uniqueness_witness :
    desktopCreateAgent true [("A", ⟨"A", "/w1", none, none⟩)] "A" "/w2" "opus" false none =
      (Except.error "Agent with this ID already exists",
        [("A", ⟨"A", "/w1", none, none⟩)]) ∧
    hmLookup (serverCreateAgent true regA (some "A") "m" "new" "/w2" "opus" false []).2 "A" =
      some newAgentA := by
  have h := C3_create_uniqueness [("A", ⟨"A", "/w1", none, none⟩)] regA termRegA
    true "A" "/w2" "opus" "m" "new" "/w2" "opus" "/w2" false none [] newAgentA
    80 24 9 (by decide)
  exact ⟨h.1, (h.2.1 rfl).2⟩

/-- C7 fails as stated: killing agent A removes it from the registry, but
the kill path broadcasts no event at all, so subscribers do not observe an
agent-status event with status exited. -/
theorem C7_counterexample :
    (serverKillAgent true regA "A").1 = Except.ok () ∧
    hmLookup (serverKillAgent true regA "A").2.1 "A" = none ∧
    (serverKillAgent true regA "A").2.2 = [] ∧
    BMsg.status "A" AgentStatus.exited ∉ (serverKillAgent true regA "A").2.2 := by
  exact ⟨rfl, by decide, rfl, by decide⟩

/-- C7 amended: kill_agent removes the session from the registry, but emits
no status event; in particular no exited status is ever observed, the
Exited variant being emitted nowhere. -/
theorem C7_kill_removes_silently (killOk : Bool)
    (m : List (String × AgentProcessM)) (id : String) (a : AgentProcessM)
    (h : hmLookup m id = some a) :
    hmLookup (serverKillAgent killOk m id).2.1 id = none ∧
    (serverKillAgent killOk m id).2.2 = [] := by
  constructor
  · simp [serverKillAgent, h, hmLookup_hmRemove]
  · simp only [serverKillAgent, h]
    cases hc : a.currentChild with
    | none => simp [AgentProcessM.kill, hc]
    | some c => cases killOk <;> simp [AgentProcessM.kill, hc]

/-- Witness for C7 amended at the one-entry registry. -/
theorem C7_kill_removes_silently_witness :
    hmLookup (serverKillAgent true regA "A").2.1 "A" = none ∧
    (serverKillAgent true regA "A").2.2 = [] :=
  C7_kill_removes_silently true regA "A" oldAgentA (by decide)

/-- C8 fails as stated: when the stdout reader reaches end-of-stream
(natural termination), the stored child handle is untouched, because the
reader thread captures only the session-id cell and the sender; a session
whose child terminated naturally still holds the handle. -/
theorem C8_counterexample :
    (sessionAfterReaderRun oldAgentA [("x", none)]).1.currentChild = some 7 ∧
    (sessionAfterReaderRun oldAgentA [("x", none)]).1.currentChild ≠ none := by
  exact ⟨rfl, by decide⟩

/-- C8 amended: the stored child handle is absent after a successful stop
or kill (forced termination), but a natural termination, in the form of the
stdout reader running to end-of-stream, leaves the stored handle exactly as
it was. -/
theorem C8_child_handle (killOk : Bool) (a : AgentProcessM)
    (lines : List (String × Option Frame)) :
    ((AgentProcessM.stop killOk a).1 = Except.ok () →
      (AgentProcessM.stop killOk a).2.1.currentChild = none) ∧
    ((AgentProcessM.kill killOk a).1 = Except.ok () →
      (AgentProcessM.kill killOk a).2.1.currentChild = none) ∧
    (sessionAfterReaderRun a lines).1.currentChild = a.currentChild := by
  refine ⟨?_, ?_, rfl⟩
  · intro h
    cases hc : a.currentChild with
    | none => simp [AgentProcessM.stop, hc]
    | some c =>
      cases killOk with
      | true => simp [AgentProcessM.stop, hc]
      | false => simp [AgentProcessM.stop, hc] at h
  · intro h
    cases hc : a.currentChild with
    | none => simp [AgentProcessM.kill, hc]
    | some c =>
      cases killOk with
      | true => simp [AgentProcessM.kill, hc]
      | false => simp [AgentProcessM.kill, hc] at h

/-- Witness for C8 amended: a successful stop and kill on a session with a
live child leave no handle, and an end-of-stream run leaves the handle. -/
theorem C8_child_handle_witness :
    (AgentProcessM.stop true oldAgentA).2.1.currentChild = none ∧
    (AgentProcessM.kill true oldAgentA).2.1.currentChild = none ∧
    (sessionAfterReaderRun oldAgentA []).1.currentChild = some 7 := by
  have h := C8_child_handle true oldAgentA []
  exact ⟨h.1 rfl, h.2.1 rfl, h.2.2⟩

/-- C9: in the terminal reader loop, a successful read of a chunk first
checks the kill channel without blocking and exits with no further event
when signalled; otherwise the chunk is decoded with total lossy UTF-8
conversion and exactly one terminal-output event per chunk is published, in
order; a read of zero bytes (end-of-file) exits the loop. -/
theorem C9_reader_loop (tid : String) (kill : Nat → Bool) (i : Nat)
    (bs : List Nat) (chunks : List (List Nat)) (rest : List ReadResult) :
    (kill i = true →
      readerLoop tid kill i (ReadResult.chunk bs :: rest) = []) ∧
    ((∀ j, kill j = false) →
      readerLoop tid kill i (chunks.map ReadResult.chunk ++ ReadResult.eof :: rest) =
        chunks.map (fun c => ⟨tid, utf8Lossy c⟩)) := by
  constructor
  · intro h
    simp [readerLoop, h]
  · intro hnk
    induction chunks generalizing i with
    | nil => simp [readerLoop]
    | cons c cs ih =>
      simp [readerLoop, hnk i, ih (i + 1)]

/-- Witness for C9: with the kill channel signalled the loop publishes
nothing, and with it silent a chunk of invalid UTF-8 is decoded totally,
with the invalid byte replaced, into exactly one event. -/
theorem C9_reader_loop_witness :
    readerLoop "T" (fun _ => true) 0 [ReadResult.chunk [0x68], ReadResult.eof] = [] ∧
    readerLoop "T" (fun _ => false) 0
        [ReadResult.chunk [0xFF, 0x68, 0x69], ReadResult.eof] =
      [⟨"T", String.mk [replChar, 'h', 'i']⟩] := by
  constructor
  · exact (C9_reader_loop "T" (fun _ => true) 0 [0x68] [] [ReadResult.eof]).1 rfl
  · have h := (C9_reader_loop "T" (fun _ => false) 0 [] [[0xFF, 0x68, 0x69]]
      []).2 (fun _ => rfl)
    exact h.trans (by decide)

/-- C1 fails as stated for writes: in the tree fsA, the client path link
names a symlink inside the workspace whose canonical resolution is
/etc/target, outside the canonical workspace /ws; write_file nevertheless
succeeds, and the content lands at /etc/target. -/
theorem C1_counterexample :
    (write_file fsA wsA ⟨⟨false, ["link"]⟩, "pwned"⟩).1 = Except.ok () ∧
    canonicalize fsA (pathJoin wsA ⟨false, ["link"]⟩) = some ["etc", "target"] ∧
    canonicalize fsA wsA = some ["ws"] ∧
    ¬ List.isPrefixOf ["ws"] ["etc", "target"] ∧
    FS.lookup (write_file fsA wsA ⟨⟨false, ["link"]⟩, "pwned"⟩).2 ["etc", "target"] =
      some (Entry.file "pwned") := by
  exact ⟨rfl, by decide, by decide, by decide, by decide⟩

/-- C1 amended: read_file succeeds only when the canonical resolved target
is a descendant of the canonical workspace, exactly as claimed; write_file
instead applies the containment check to the canonical parent of the joined
path (after creating missing parent directories), so a write whose final
component is an in-workspace symlink can land outside the workspace. -/
theorem C1_traversal_check (fs : FS) (ws : RawPath) (rreq : ReadFileRequest)
    (wreq : WriteFileRequest) (c : String) (fs2 : FS) (parent : RawPath) :
    (read_file fs ws rreq = Except.ok c →
      ∃ cws cf, canonicalize fs ws = some cws ∧
        canonicalize fs (pathJoin ws rreq.path) = some cf ∧
        List.isPrefixOf cws cf) ∧
    (write_file fs ws wreq = (Except.ok (), fs2) →
      rawParent (pathJoin ws wreq.path) = some parent →
      ∃ cws fs1 cp, canonicalize fs ws = some cws ∧
        createDirAll fs resolveFuel [] parent.comps = (true, fs1) ∧
        canonicalize fs1 parent = some cp ∧
        List.isPrefixOf cws cp) := by
  constructor
  · intro h
    unfold read_file at h
    split at h
    · exact absurd h (by simp)
    · next cws hw =>
      split at h
      · exact absurd h (by simp)
      · next cf hf =>
        split at h
        · exact absurd h (by simp)
        · next hp =>
          exact ⟨cws, cf, hw, hf, not_not.mp hp⟩
  · intro h hp
    simp only [write_file, hp] at h
    split at h
    · simp at h
    · next cws hw =>
      split at h
      · simp at h
      · next fs1 hcd =>
        split at h
        · simp at h
        · next cp hcp =>
          split at h
          · simp at h
          · next hnp =>
            exact ⟨cws, fs1, cp, hw, hcd, hcp, not_not.mp hnp⟩

/-- Witness for C1 amended: a read inside the workspace and a write inside
the workspace both pass the respective canonical checks on the tree fsA. -/
theorem C1_traversal_check_witness :
    (∃ cws cf, canonicalize fsA wsA = some cws ∧
      canonicalize fsA (pathJoin wsA ⟨false, ["hello.txt"]⟩) = some cf ∧
      List.isPrefixOf cws cf) ∧
    (∃ cws fs1 cp, canonicalize fsA wsA = some cws ∧
      createDirAll fsA resolveFuel [] (⟨true, ["ws"]⟩ : RawPath).comps = (true, fs1) ∧
      canonicalize fs1 ⟨true, ["ws"]⟩ = some cp ∧
      List.isPrefixOf cws cp) := by
  have h := C1_traversal_check fsA wsA ⟨⟨false, ["hello.txt"]⟩⟩
    ⟨⟨false, ["hello.txt"]⟩, "new content"⟩ "hi"
    (write_file fsA wsA ⟨⟨false, ["hello.txt"]⟩, "new content"⟩).2 ⟨true, ["ws"]⟩
  exact ⟨h.1 rfl, h.2 rfl rfl⟩

/-- C2 fails as stated: the request POST /api/files/read/X with the client
path ../etc/passwd is denied by the traversal check, but the handler maps
the error to status 500, not 403. -/
theorem C2_counterexample :
    httpReadFile [("X", wsA)] fsA "X" ⟨⟨false, ["..", "etc", "passwd"]⟩⟩ =
      (500, accessDeniedMsg) ∧
    (500 : Nat) ≠ 403 := by
  exact ⟨rfl, by decide⟩

/-- C2 amended: both file handlers translate every error from the file
operation, the traversal denial included, to status 500; a request whose
path resolves outside the workspace is answered 500 with the access-denied
message, and the only statuses the handlers produce are 200, 404 and
500. -/
theorem C2_http_file_status (agents : List (String × RawPath)) (fs : FS)
    (agent_id : String) (rreq : ReadFileRequest) (wreq : WriteFileRequest)
    (wd : RawPath) (e : String) :
    (hmLookup agents agent_id = some wd →
      read_file fs wd rreq = Except.error e →
      httpReadFile agents fs agent_id rreq = (500, e)) ∧
    (hmLookup agents agent_id = some wd →
      (write_file fs wd wreq).1 = Except.error e →
      (httpWriteFile agents fs agent_id wreq).1 = (500, e)) ∧
    ((httpReadFile agents fs agent_id rreq).1 = 200 ∨
      (httpReadFile agents fs agent_id rreq).1 = 404 ∨
      (httpReadFile agents fs agent_id rreq).1 = 500) ∧
    ((httpWriteFile agents fs agent_id wreq).1.1 = 200 ∨
      (httpWriteFile agents fs agent_id wreq).1.1 = 404 ∨
      (httpWriteFile agents fs agent_id wreq).1.1 = 500) := by
  refine ⟨?_, ?_, ?_, ?_⟩
  · intro hl he
    simp [httpReadFile, hl, he]
  · intro hl he
    rcases hw : write_file fs wd wreq with ⟨r, fs2⟩
    rw [hw] at he
    simp only at he
    subst he
    simp [httpWriteFile, hl, hw]
  · unfold httpReadFile
    split
    · simp
    · split <;> simp
  · unfold httpWriteFile
    split
    · simp
    · split <;> simp

/-- Witness for C2 amended: the traversal-denied read on fsA is answered
500 with the access-denied message. -/
theorem C2_http_file_status_witness :
    httpReadFile [("X", wsA)] fsA "X" ⟨⟨false, ["..", "etc", "passwd"]⟩⟩ =
      (500, accessDeniedMsg) := by
  exact (C2_http_file_status [("X", wsA)] fsA "X"
    ⟨⟨false, ["..", "etc", "passwd"]⟩⟩ ⟨⟨false, ["x"]⟩, "c"⟩ wsA
    accessDeniedMsg).1 (by decide) rfl

/-- C10: whenever write_file answers the access-denied error, the joined
path had a parent and the tree handed back with the denial is exactly the
tree produced by create_dir_all on that parent: the missing parent
directories were created before the containment check ran, so a denied
request can leave the filesystem changed. -/
theorem C10_mkdir_before_check (fs : FS) (ws : RawPath) (req : WriteFileRequest)
    (fs2 : FS)
    (h : write_file fs ws req = (Except.error accessDeniedMsg, fs2)) :
    ∃ parent, rawParent (pathJoin ws req.path) = some parent ∧
      createDirAll fs resolveFuel [] parent.comps = (true, fs2) := by
  unfold write_file at h
  split at h
  · simp [accessDeniedMsg] at h
  · next cws hw =>
    split at h
    · next parent hp =>
      split at h
      · next fs1 hcd => simp [accessDeniedMsg] at h
      · next fs1 hcd =>
        split at h
        · simp [accessDeniedMsg] at h
        · next cp hcp =>
          split at h
          · next hnp =>
            have h2 : fs1 = fs2 := congrArg Prod.snd h
            exact ⟨parent, hp, by rw [hcd, h2]⟩
          · next hnp =>
            split at h
            · simp at h
            · simp [accessDeniedMsg] at h
    · split at h
      · simp at h
      · simp [accessDeniedMsg] at h

/-- Witness for C10: the escaping request ../evil/x.txt on fsA is denied,
yet the denial comes back with a tree in which the directory /evil, absent
from fsA and outside the workspace, now exists. -/
theorem C10_mkdir_before_check_witness :
    (∃ parent,
      rawParent (pathJoin wsA ⟨false, ["..", "evil", "x.txt"]⟩) = some parent ∧
      createDirAll fsA resolveFuel [] parent.comps =
        (true, (write_file fsA wsA ⟨⟨false, ["..", "evil", "x.txt"]⟩, "boo"⟩).2)) ∧
    FS.lookup (write_file fsA wsA ⟨⟨false, ["..", "evil", "x.txt"]⟩, "boo"⟩).2 ["evil"] =
      some Entry.dir ∧
    FS.lookup fsA ["evil"] = none := by
  refine ⟨C10_mkdir_before_check fsA wsA ⟨⟨false, ["..", "evil", "x.txt"]⟩, "boo"⟩
    (write_file fsA wsA ⟨⟨false, ["..", "evil", "x.txt"]⟩, "boo"⟩).2 rfl,
    by decide, by decide⟩
